import Mathlib

/-!
Shallow embedding of the resilience layer of `openstrand-sdk`
(`src/llm/retry.ts`, `src/llm/service.ts`, `src/llm/types.ts`,
`src/llm/provider.ts`) and proofs about it.

Numbers that are JavaScript `number`s are modelled as `ℚ` where real
arithmetic matters (backoff delays) and as `ℕ`/`ℤ` where the code only
counts or compares (attempt counts, token usage, epoch milliseconds).
`Math.random()` draws are modelled as an explicit parameter in `[0, 1]`.
Promises are modelled by explicit outcome sequences: the outcome of the
i-th invocation of a fallible operation is given by a function `ℕ → Except _ _`.
-/

namespace OpenStrand

/-- `LLMProvider` from `types.ts`: the enumerated provider identifiers. -/
inductive Provider : Type
  | openai | anthropic | groq | openrouter | ollama | azure | vllm
deriving DecidableEq, Repr

/-- `provider.name` as the string used in messages. -/
def Provider.name : Provider → String
  | .openai => "openai"
  | .anthropic => "anthropic"
  | .groq => "groq"
  | .openrouter => "openrouter"
  | .ollama => "ollama"
  | .azure => "azure"
  | .vllm => "vllm"

/-- The JavaScript error values that flow through the layer:
`plain` is a generic `Error` (e.g. a `SyntaxError` from `JSON.parse`),
`zod` is a `ZodError` thrown by `schema.parse`, and
`llm` is the tagged `LLMError` class of `types.ts` with its
`provider`, `statusCode?`, `retryable` and `originalError?` fields. -/
inductive JSError : Type
  | plain (message : String)
  | zod (message : String)
  | llm (message : String) (provider : Provider) (statusCode : Option ℕ)
        (retryable : Bool) (originalError : Option JSError)

/-- `error.message`. -/
def JSError.message : JSError → String
  | .plain m => m
  | .zod m => m
  | .llm m _ _ _ _ => m

/-- `error instanceof LLMError`. -/
def JSError.isLLMError : JSError → Bool
  | .llm _ _ _ _ _ => true
  | _ => false

/-- The `provider` field of an `LLMError` (absent on other errors). -/
def JSError.providerTag : JSError → Option Provider
  | .llm _ p _ _ _ => some p
  | _ => none

/-- The `retryable` field of an `LLMError` (absent on other errors). -/
def JSError.retryableTag : JSError → Option Bool
  | .llm _ _ _ r _ => some r
  | _ => none

/-- The `statusCode` field of an `LLMError` (absent on other errors). -/
def JSError.statusTag : JSError → Option ℕ
  | .llm _ _ s _ _ => s
  | _ => none

/-- The `originalError` (cause) field of an `LLMError`. -/
def JSError.causeTag : JSError → Option JSError
  | .llm _ _ _ _ c => c
  | _ => none

/-- `RetryConfig` from `types.ts`. -/
structure RetryConfig : Type where
  maxRetries : ℕ
  initialBackoffMs : ℚ
  maxBackoffMs : ℚ
  backoffMultiplier : ℚ
  jitter : ℚ
  retryableStatuses : List ℕ
deriving DecidableEq, Repr

/-- `DEFAULT_RETRY_CONFIG` from `retry.ts`. -/
def DEFAULT_RETRY_CONFIG : RetryConfig :=
  { maxRetries := 3
    initialBackoffMs := 1000
    maxBackoffMs := 60000
    backoffMultiplier := 2
    jitter := 1/10
    retryableStatuses := [408, 429, 500, 502, 503, 504] }

/-- `calculateBackoff` from `retry.ts`; `rand` is the `Math.random()` draw. -/
def calculateBackoff (attempt : ℕ) (config : RetryConfig) (rand : ℚ) : ℚ :=
  let exponentialDelay := config.initialBackoffMs * config.backoffMultiplier ^ attempt
  let cappedDelay := min exponentialDelay config.maxBackoffMs
  let jitterRange := cappedDelay * config.jitter
  let jitterTerm := rand * jitterRange - jitterRange / 2
  max 0 (cappedDelay + jitterTerm)

/-- The lower-cased-message test of `isRetryableError`:
`message.includes('timeout') || message.includes('econnreset') ||
message.includes('enotfound') || message.includes('network')`. -/
def isNetworkMessage (message : String) : Bool :=
  let m := message.toLower
  m.containsSubstr "timeout" || m.containsSubstr "econnreset" ||
    m.containsSubstr "enotfound" || m.containsSubstr "network"

/-- `isRetryableError` from `retry.ts`.  For an `LLMError`:
`retryable = false` short-circuits to `false`; a (truthy) status code in
`retryableStatuses` gives `true`; otherwise control falls through to the
network-message test, which is also the whole test for other `Error`s. -/
def isRetryableError (error : JSError) (config : RetryConfig) : Bool :=
  match error with
  | .llm _ _ statusCode retryable _ =>
    if !retryable then false
    else if (match statusCode with
             | some c => c ≠ 0 && config.retryableStatuses.contains c
             | none => false) then true
    else isNetworkMessage error.message
  | _ => isNetworkMessage error.message

/-- The `LLMError` thrown by `withRetry` when all attempts are exhausted:
`new LLMError('Failed after N attempts: msg', 'openai', undefined, false, lastError)`. -/
def wrapExhausted (config : RetryConfig) (lastError : JSError) : JSError :=
  .llm ("Failed after " ++ toString (config.maxRetries + 1) ++ " attempts: " ++
        lastError.message)
    .openai none false (some lastError)

/-- The loop of `withRetry`.  `fuel` is the number of attempts still allowed
after the current one; at the top-level call `fuel = config.maxRetries`, so
`fuel = 0` exactly when `attempt === config.maxRetries` (the loop's
"don't retry on last attempt" break).  The current attempt index is
`config.maxRetries - fuel`.  Returns the outcome together with the list of
`onRetry(attempt + 1, lastError)` invocations in order. -/
def withRetryGo (op : ℕ → Except JSError α) (config : RetryConfig) :
    ℕ → Except JSError α × List (ℕ × JSError)
  | 0 =>
    match op config.maxRetries with
    | .ok v => (.ok v, [])
    | .error e => (.error (wrapExhausted config e), [])
  | fuel' + 1 =>
    let attempt := config.maxRetries - (fuel' + 1)
    match op attempt with
    | .ok v => (.ok v, [])
    | .error e =>
      if isRetryableError e config then
        let r := withRetryGo op config fuel'
        (r.1, (attempt + 1, e) :: r.2)
      else
        (.error e, [])

/-- `withRetry` from `retry.ts`, with the operation's successive outcomes
given by `op` (the i-th invocation of `fn` yields `op i`). -/
def withRetry (op : ℕ → Except JSError α) (config : RetryConfig) :
    Except JSError α × List (ℕ × JSError) :=
  withRetryGo op config config.maxRetries

/-- The `LLMError` rejected by `withTimeout` on expiry:
`new LLMError(errorMessage, 'openai', 408, true)`. -/
def timeoutError (errorMessage : String) : JSError :=
  .llm errorMessage .openai (some 408) true none

/-- `withTimeout` from `retry.ts`: the race is modelled by the boolean
`timedOut` saying whether the timer settled first. -/
def withTimeout (result : Except JSError α) (timedOut : Bool)
    (errorMessage : String) : Except JSError α :=
  if timedOut then .error (timeoutError errorMessage) else result

/-- The `'closed' | 'open' | 'half-open'` state tag of the circuit breaker
(`opened` stands for `'open'`, a reserved word in Lean). -/
inductive CBState : Type
  | closed | opened | halfOpen
deriving DecidableEq, Repr

/-- `CircuitBreakerState` from `retry.ts`.  `lastFailureTime` is the
`Date.now()` epoch in milliseconds. -/
structure CircuitBreakerState : Type where
  failureCount : ℕ
  lastFailureTime : ℤ
  state : CBState
deriving DecidableEq, Repr

/-- The initial state of a freshly constructed `CircuitBreaker`. -/
def initialCBState : CircuitBreakerState :=
  { failureCount := 0, lastFailureTime := 0, state := .closed }

/-- `CircuitBreakerConfig` from `retry.ts`. -/
structure CircuitBreakerConfig : Type where
  failureThreshold : ℕ
  resetTimeoutMs : ℤ
  halfOpenMaxAttempts : ℕ
deriving DecidableEq, Repr

/-- The constructor-default `CircuitBreakerConfig`. -/
def defaultCircuitBreakerConfig : CircuitBreakerConfig :=
  { failureThreshold := 5, resetTimeoutMs := 60000, halfOpenMaxAttempts := 3 }

/-- The `LLMError` thrown by `CircuitBreaker.execute` while open:
`new LLMError('Circuit breaker is open (too many recent failures)', 'openai', 503, false)`. -/
def circuitOpenError : JSError :=
  .llm "Circuit breaker is open (too many recent failures)" .openai (some 503)
    false none

/-- `CircuitBreaker.checkState`: the lazy open→half-open transition, which
also clears the failure count. -/
def checkState (config : CircuitBreakerConfig) (s : CircuitBreakerState)
    (now : ℤ) : CircuitBreakerState :=
  if s.state = .opened ∧ now - s.lastFailureTime ≥ config.resetTimeoutMs then
    { s with state := .halfOpen, failureCount := 0 }
  else s

/-- `CircuitBreaker.onSuccess`: half-open closes; the failure count resets. -/
def onSuccess (s : CircuitBreakerState) : CircuitBreakerState :=
  { s with
    state := if s.state = .halfOpen then .closed else s.state
    failureCount := 0 }

/-- `CircuitBreaker.onFailure`: increment the count, record the time, and
open the circuit when the threshold is reached. -/
def onFailure (config : CircuitBreakerConfig) (s : CircuitBreakerState)
    (now : ℤ) : CircuitBreakerState :=
  let fc := s.failureCount + 1
  { failureCount := fc
    lastFailureTime := now
    state := if fc ≥ config.failureThreshold then .opened else s.state }

/-- The observable outcome of one `CircuitBreaker.execute` call:
either the call was rejected without invoking the wrapped operation, or the
operation ran and produced `r`. -/
inductive CBResult (α : Type) : Type
  | rejected (e : JSError)
  | completed (r : Except JSError α)

/-- `CircuitBreaker.execute` as a state transition.  `outcome` is what the
wrapped operation would produce if invoked; in the rejected case the result
and post-state do not depend on it (the operation is not invoked). -/
def cbExecute (config : CircuitBreakerConfig) (s : CircuitBreakerState)
    (now : ℤ) (outcome : Except JSError α) :
    CBResult α × CircuitBreakerState :=
  let s1 := checkState config s now
  if s1.state = .opened then
    (.rejected circuitOpenError, s1)
  else
    match outcome with
    | .ok v => (.completed (.ok v), onSuccess s1)
    | .error e => (.completed (.error e), onFailure config s1 now)

/-- A run of consecutive failing calls through one breaker: `failCascade
config e ts k` is the breaker state after `k` failed `execute` calls from
the fresh state, the i-th at time `ts i` (the wrapped operation's value
type is irrelevant here and fixed to `ℕ`). -/
def failCascade (config : CircuitBreakerConfig) (e : JSError) (ts : ℕ → ℤ) :
    ℕ → CircuitBreakerState
  | 0 => initialCBState
  | k + 1 =>
    (cbExecute config (failCascade config e ts k) (ts k)
      (.error e : Except JSError ℕ)).2

/-! ### The LLM service (`service.ts`) -/

/-- A JavaScript `Date`, carrying the epoch-milliseconds value together with
the calendar fields the code reads (`getMonth()`, 0–11, and the year). -/
structure DateModel : Type where
  time : ℤ
  month : ℕ
  year : ℤ
deriving DecidableEq, Repr

/-- `TokenBudget` from `types.ts`. -/
structure TokenBudget : Type where
  dailyLimit : ℕ
  dailyUsage : ℕ
  monthlyLimit : ℕ
  monthlyUsage : ℕ
  resetsAt : DateModel
deriving DecidableEq, Repr

/-- `usage` of an `LLMResponse`. -/
structure Usage : Type where
  promptTokens : ℕ
  completionTokens : ℕ
  totalTokens : ℕ
deriving DecidableEq, Repr

/-- `LLMResponse` from `types.ts` (the fields the resilience layer reads). -/
structure LLMResponse (β : Type) : Type where
  content : β
  provider : Provider
  model : String
  usage : Usage
  latencyMs : ℕ
  costUsd : Option ℚ := none

/-- The budget-exceeded `LLMError`:
`new LLMError(msg, this.defaultProvider || 'openai', 429, false)`. -/
def budgetExceededError (msg : String) (defaultProvider : Option Provider) :
    JSError :=
  .llm msg (defaultProvider.getD .openai) (some 429) false none

/-- `LLMService.checkTokenBudget`.  If `now` is strictly past `resetsAt`,
daily usage resets and monthly usage resets exactly when `now.getMonth()`
differs from `resetsAt.getMonth()`; `resetsAt` advances to `now + 24h`
(the calendar fields of the advanced `Date` are kept as `now`'s — no claim
reads them).  Returns the error thrown (if any) together with the budget as
mutated, since the reset mutations persist even when the check then throws. -/
def checkTokenBudget (defaultProvider : Option Provider) (b : TokenBudget)
    (now : DateModel) : Option JSError × TokenBudget :=
  let b1 :=
    if now.time > b.resetsAt.time then
      { b with
        dailyUsage := 0
        monthlyUsage := if now.month ≠ b.resetsAt.month then 0 else b.monthlyUsage
        resetsAt := { now with time := now.time + 24 * 60 * 60 * 1000 } }
    else b
  if b1.dailyUsage ≥ b1.dailyLimit then
    (some (budgetExceededError "Daily token budget exceeded" defaultProvider), b1)
  else if b1.monthlyUsage ≥ b1.monthlyLimit then
    (some (budgetExceededError "Monthly token budget exceeded" defaultProvider), b1)
  else
    (none, b1)

/-- Modelled from the spec (refinement comparison only; the code under
test is `checkTokenBudget` above): "monthly usage resets only when the
calendar month has changed" — two instants lie in different calendar months
when the year or the month-of-year differs. -/
def calendarMonthChanged (d1 d2 : DateModel) : Bool :=
  d1.year != d2.year || d1.month != d2.month

/-- The configuration fields of `LLMService` that the resilience behaviour
reads (registry and telemetry callbacks are not modelled; provider
resolution is modelled by passing the selected provider explicitly, as
`executeRequest` receives it in the source). -/
structure LLMServiceConfig : Type where
  enableRetry : Bool := true
  enableCircuitBreaker : Bool := true
  retryConfig : RetryConfig := DEFAULT_RETRY_CONFIG
  tokenBudget : Option TokenBudget := none
  defaultProvider : Option Provider := none

/-- The observable outcome of `LLMService.executeRequest`:
the returned/thrown result, the token budget after the call, this
provider's circuit-breaker entry after the call (`none` when never
created), the `onRetry` invocations, and the number of times
`provider.generate` was invoked. -/
structure ExecResult (β : Type) : Type where
  result : Except JSError (LLMResponse β)
  budget : Option TokenBudget
  breaker : Option CircuitBreakerState
  retryCalls : List (ℕ × JSError)
  genCalls : ℕ

/-- `LLMService.executeRequest`.  The environment of one call is:
`genSeq i`, the outcome of the i-th invocation of `provider.generate`;
`timedOut i`, whether the timeout timer beat that invocation; and `now`,
the current `Date`.  `breakerIn` is the circuit-breaker map entry for this
provider before the call (`none` if absent). -/
def executeRequest (cfg : LLMServiceConfig) (prov : Provider)
    (provTimeout : Option ℕ) (optTimeout : Option ℕ)
    (breakerIn : Option CircuitBreakerState)
    (genSeq : ℕ → Except JSError (LLMResponse β)) (timedOut : ℕ → Bool)
    (now : DateModel) : ExecResult β :=
  let bcheck : Option JSError × Option TokenBudget :=
    match cfg.tokenBudget with
    | none => (none, none)
    | some b =>
      let r := checkTokenBudget cfg.defaultProvider b now
      (r.1, some r.2)
  match bcheck with
  | (some e, budget1) =>
    { result := .error e, budget := budget1, breaker := breakerIn,
      retryCalls := [], genCalls := 0 }
  | (none, budget1) =>
    let cb0 : Option CircuitBreakerState :=
      if cfg.enableCircuitBreaker then some (breakerIn.getD initialCBState)
      else none
    let timeoutMs : ℕ := optTimeout.getD (provTimeout.getD 30000)
    let attemptFn : ℕ → Except JSError (LLMResponse β) := fun i =>
      withTimeout (genSeq i) (timedOut i)
        ("Request to " ++ prov.name ++ " timed out after " ++
          toString timeoutMs ++ "ms")
    let run : Except JSError (LLMResponse β) × List (ℕ × JSError) × ℕ ×
        Option CircuitBreakerState :=
      match cb0 with
      | some cb =>
        if cfg.enableRetry then
          let r := withRetry attemptFn cfg.retryConfig
          let step := cbExecute defaultCircuitBreakerConfig cb now.time r.1
          match step.1 with
          | .rejected e => (.error e, [], 0, some step.2)
          | .completed res => (res, r.2, r.2.length + 1, some step.2)
        else
          let step := cbExecute defaultCircuitBreakerConfig cb now.time
            (attemptFn 0)
          match step.1 with
          | .rejected e => (.error e, [], 0, some step.2)
          | .completed res => (res, [], 1, some step.2)
      | none =>
        if cfg.enableRetry then
          let r := withRetry attemptFn cfg.retryConfig
          (r.1, r.2, r.2.length + 1, none)
        else
          (attemptFn 0, [], 1, none)
    match run with
    | (res, rcalls, gcalls, cbOut) =>
      let budget2 : Option TokenBudget :=
        match res, budget1 with
        | .ok resp, some b =>
          some { b with
            dailyUsage := b.dailyUsage + resp.usage.totalTokens
            monthlyUsage := b.monthlyUsage + resp.usage.totalTokens }
        | _, b => b
      { result := res, budget := budget2,
        breaker := match cbOut with | some c => some c | none => breakerIn,
        retryCalls := rcalls, genCalls := gcalls }

/-- A JavaScript JSON value, as produced by `JSON.parse`. -/
inductive JsonValue : Type
  | null
  | bool (b : Bool)
  | num (q : ℚ)
  | str (s : String)
  | arr (elems : List JsonValue)
  | obj (fields : List (String × JsonValue))

/-- The caller-supplied `Partial<LLMRequestOptions>` override object, with the
fields the resilience layer reads (`some` means the key is present in the
object literal and is spread over the defaults). -/
structure RequestOverrides : Type where
  model : Option String := none
  json : Option Bool := none
  timeout : Option ℕ := none

/-- The request-options record the orchestrator hands to
`provider.generate` (the fields the claims observe). -/
structure BuiltOptions : Type where
  input : String
  systemPrompt : Option String
  model : String
  json : Bool
  timeout : Option ℕ

/-- `StructuredLLMRequest` from `types.ts`.  Zod schemas are modelled as
functions returning the parsed value or the `ZodError` message; a literal
prompt template is the constant function. -/
structure StructuredRequest (ι ω : Type) : Type where
  inputSchema : ι → Except String ι
  outputSchema : JsonValue → Except String ω
  input : ι
  systemPrompt : Option (ι → String) := none
  userPrompt : ι → String
  model : Option String := none
  options : Option RequestOverrides := none

/-- The construction of `requestOptions` inside `LLMService.ask`
(lines 124–134 of `service.ts`): defaults first, `json: true`, then
`...request.options` spread over them — so a caller-supplied field wins. -/
def buildAskOptions (req : StructuredRequest ι ω) (validatedInput : ι)
    (provDefaultModel : Option String) : BuiltOptions :=
  let base : BuiltOptions :=
    { input := req.userPrompt validatedInput
      systemPrompt := req.systemPrompt.map (fun f => f validatedInput)
      model := req.model.getD (provDefaultModel.getD "gpt-3.5-turbo")
      json := true
      timeout := none }
  match req.options with
  | none => base
  | some o =>
    { base with
      model := o.model.getD base.model
      json := o.json.getD base.json
      timeout := match o.timeout with | some t => some t | none => base.timeout }

/-- `LLMService.complete`: builds plain-string request options (the prompt
and model feed fields no claim observes) and runs `executeRequest`; a
caller-supplied `timeout` override reaches the timeout guard. -/
def complete (cfg : LLMServiceConfig) (prov : Provider)
    (provTimeout : Option ℕ) (_prompt : String)
    (overrides : Option RequestOverrides)
    (breakerIn : Option CircuitBreakerState)
    (genSeq : ℕ → Except JSError (LLMResponse String)) (timedOut : ℕ → Bool)
    (now : DateModel) : ExecResult String :=
  executeRequest cfg prov provTimeout
    (overrides.bind (fun o => o.timeout)) breakerIn genSeq timedOut now

/-- `LLMService.ask`.  `jsonParse` is the external `JSON.parse`, returning
the parsed value or the `SyntaxError` message. -/
def ask (cfg : LLMServiceConfig) (prov : Provider)
    (provDefaultModel : Option String) (provTimeout : Option ℕ)
    (req : StructuredRequest ι ω)
    (jsonParse : String → Except String JsonValue)
    (breakerIn : Option CircuitBreakerState)
    (genSeq : ℕ → Except JSError (LLMResponse String)) (timedOut : ℕ → Bool)
    (now : DateModel) : ExecResult ω :=
  match req.inputSchema req.input with
  | .error m =>
    -- `request.inputSchema.parse` throws the raw ZodError before anything else
    { result := .error (.zod m), budget := cfg.tokenBudget,
      breaker := breakerIn, retryCalls := [], genCalls := 0 }
  | .ok validatedInput =>
    let opts := buildAskOptions req validatedInput provDefaultModel
    let ex := executeRequest cfg prov provTimeout opts.timeout breakerIn
      genSeq timedOut now
    match ex.result with
    | .error e =>
      { result := .error e, budget := ex.budget, breaker := ex.breaker,
        retryCalls := ex.retryCalls, genCalls := ex.genCalls }
    | .ok resp =>
      let parsed : Except JSError ω :=
        match jsonParse resp.content with
        | .error m => .error (.plain m)
        | .ok j =>
          match req.outputSchema j with
          | .error m => .error (.zod m)
          | .ok w => .ok w
      match parsed with
      | .ok w =>
        { result := .ok
            { content := w, provider := resp.provider, model := resp.model,
              usage := resp.usage, latencyMs := resp.latencyMs,
              costUsd := resp.costUsd }
          budget := ex.budget, breaker := ex.breaker,
          retryCalls := ex.retryCalls, genCalls := ex.genCalls }
      | .error e =>
        { result := .error
            (.llm ("Failed to parse LLM output: " ++ e.message) prov none
              false (some e))
          budget := ex.budget, breaker := ex.breaker,
          retryCalls := ex.retryCalls, genCalls := ex.genCalls }

/-! ### Concrete fixtures used by witnesses -/

/-- The spec's stub response: `{content:"4", usage:{5,1,6}}`. -/
def stubResponse : LLMResponse String :=
  { content := "4", provider := .openai, model := "gpt-3.5-turbo",
    usage := { promptTokens := 5, completionTokens := 1, totalTokens := 6 },
    latencyMs := 10 }

/-- A budget whose daily usage has reached its limit (`1000/1000`). -/
def exhaustedBudget : TokenBudget :=
  { dailyLimit := 1000, dailyUsage := 1000, monthlyLimit := 100000,
    monthlyUsage := 40, resetsAt := { time := 500, month := 3, year := 2025 } }

/-- A service configured with the exhausted budget and otherwise defaults. -/
def budgetCfg : LLMServiceConfig := { tokenBudget := some exhaustedBudget }

/-- A `Date` before `exhaustedBudget.resetsAt`. -/
def earlyNow : DateModel := { time := 200, month := 3, year := 2025 }

/-- A structured request whose schemas accept everything. -/
def idSchemaReq : StructuredRequest Unit Unit :=
  { inputSchema := fun u => .ok u, outputSchema := fun _ => .ok (),
    input := (), userPrompt := fun _ => "p" }

/-! ## Theorems -/

/-- C3: for every retry configuration with `initialBackoffMs > 0`,
`maxBackoffMs ≥ initialBackoffMs`, `backoffMultiplier > 1` and jitter in
`[0, 1]`, and every attempt index and jitter draw, the delay computed by
`calculateBackoff` satisfies
`0 ≤ delay ≤ min(initialBackoffMs × backoffMultiplier^i, maxBackoffMs) × (1 + jitter/2)`. -/
theorem calculateBackoff_bounds (config : RetryConfig) (i : ℕ) (rand : ℚ)
    (hinit : 0 < config.initialBackoffMs)
    (hmax : config.initialBackoffMs ≤ config.maxBackoffMs)
    (hmult : 1 < config.backoffMultiplier)
    (hj0 : 0 ≤ config.jitter) (hj1 : config.jitter ≤ 1)
    (hr0 : 0 ≤ rand) (hr1 : rand ≤ 1) :
    0 ≤ calculateBackoff i config rand ∧
      calculateBackoff i config rand ≤
        min (config.initialBackoffMs * config.backoffMultiplier ^ i)
          config.maxBackoffMs * (1 + config.jitter / 2) := by
  have hpow : (0 : ℚ) < config.backoffMultiplier ^ i :=
    pow_pos (lt_trans one_pos hmult) i
  have hcap : (0 : ℚ) ≤
      min (config.initialBackoffMs * config.backoffMultiplier ^ i)
        config.maxBackoffMs :=
    le_min (by positivity) (le_trans hinit.le hmax)
  unfold calculateBackoff
  constructor
  · exact le_max_left 0 _
  · set c := min (config.initialBackoffMs * config.backoffMultiplier ^ i)
      config.maxBackoffMs with hc
    have hcj : 0 ≤ c * config.jitter := mul_nonneg hcap hj0
    have hbody : c + (rand * (c * config.jitter) - c * config.jitter / 2) ≤
        c * (1 + config.jitter / 2) := by
      nlinarith [mul_le_of_le_one_left hcj hr1]
    have hrhs : 0 ≤ c * (1 + config.jitter / 2) := by positivity
    calc max 0 (c + (rand * (c * config.jitter) - c * config.jitter / 2)) ≤
          c * (1 + config.jitter / 2) := max_le hrhs hbody
      _ = c * (1 + config.jitter / 2) := rfl

/-- Witness for C3 at the default configuration, attempt 2 and draw 1/2. -/
theorem calculateBackoff_bounds_witness :
    0 ≤ calculateBackoff 2 DEFAULT_RETRY_CONFIG (1/2) ∧
      calculateBackoff 2 DEFAULT_RETRY_CONFIG (1/2) ≤
        min (DEFAULT_RETRY_CONFIG.initialBackoffMs *
            DEFAULT_RETRY_CONFIG.backoffMultiplier ^ 2)
          DEFAULT_RETRY_CONFIG.maxBackoffMs *
          (1 + DEFAULT_RETRY_CONFIG.jitter / 2) :=
  calculateBackoff_bounds DEFAULT_RETRY_CONFIG 2 (1/2)
    (by norm_num [DEFAULT_RETRY_CONFIG]) (by norm_num [DEFAULT_RETRY_CONFIG])
    (by norm_num [DEFAULT_RETRY_CONFIG]) (by norm_num [DEFAULT_RETRY_CONFIG])
    (by norm_num [DEFAULT_RETRY_CONFIG]) (by norm_num) (by norm_num)

/-- C10: the resilience errors constructed inside the retry/timeout/breaker
layer — the retries-exhausted wrapper, the timeout-expiry error and the
circuit-open rejection — all carry provider `'openai'` (independently of the
provider the request targeted, which none of these constructors receives),
and the retries-exhausted and circuit-open errors carry `retryable = false`. -/
theorem layer_errors_hardcode_openai (config : RetryConfig) (e : JSError)
    (msg : String) :
    (wrapExhausted config e).providerTag = some .openai ∧
      (wrapExhausted config e).retryableTag = some false ∧
      (timeoutError msg).providerTag = some .openai ∧
      circuitOpenError.providerTag = some .openai ∧
      circuitOpenError.retryableTag = some false :=
  ⟨rfl, rfl, rfl, rfl, rfl⟩

/-- C5 (the code at the failing input): a structured request whose caller
options carry `json: false` reaches the provider with `json = false` — the
`...request.options` spread in `ask` overrides the `json: true` written just
before it, contradicting the `// Force JSON mode` intent. -/
theorem ask_options_json_not_forced :
    (buildAskOptions
      { inputSchema := fun u => .ok u
        outputSchema := fun _ => .ok ()
        input := ()
        userPrompt := fun _ => "prompt"
        options := some { json := some false } :
        StructuredRequest Unit Unit }
      () none).json = false := rfl

/-- C1: with the default breaker configuration (`failureThreshold = 5`,
`resetTimeoutMs = 60000`) and starting closed, the breaker is still closed
after 4 consecutive failures and transitions to open exactly on the 5th;
while open and before 60000ms have elapsed since the last failure, every
`execute` call is rejected with the circuit-open resilience error without
invoking the wrapped operation (the outcome `o` the operation would have
produced is arbitrary and the state is unchanged); once 60000ms have
elapsed the next call runs as the half-open probe, and its success returns
the breaker to closed with `failureCount = 0` — whence exactly one call ran
half-open, every later call seeing the closed state. -/
theorem circuit_breaker_five_failures (e : JSError) (ts : ℕ → ℤ)
    (now1 now2 : ℤ) (o : Except JSError ℕ) (v : ℕ)
    (hreject : now1 - ts 4 < 60000) (hprobe : now2 - ts 4 ≥ 60000) :
    (failCascade defaultCircuitBreakerConfig e ts 4).state = .closed ∧
      (failCascade defaultCircuitBreakerConfig e ts 4).failureCount = 4 ∧
      failCascade defaultCircuitBreakerConfig e ts 5 =
        { failureCount := 5, lastFailureTime := ts 4, state := .opened } ∧
      cbExecute defaultCircuitBreakerConfig
          (failCascade defaultCircuitBreakerConfig e ts 5) now1 o =
        (.rejected circuitOpenError,
          failCascade defaultCircuitBreakerConfig e ts 5) ∧
      (checkState defaultCircuitBreakerConfig
          (failCascade defaultCircuitBreakerConfig e ts 5) now2).state =
        .halfOpen ∧
      cbExecute defaultCircuitBreakerConfig
          (failCascade defaultCircuitBreakerConfig e ts 5) now2 (.ok v) =
        (.completed (.ok v),
          { failureCount := 0, lastFailureTime := ts 4, state := .closed }) := by
  have h5 : failCascade defaultCircuitBreakerConfig e ts 5 =
      { failureCount := 5, lastFailureTime := ts 4, state := .opened } := by
    simp [failCascade, cbExecute, checkState, onFailure, initialCBState,
      defaultCircuitBreakerConfig]
  have hnotypassed : ¬ (now1 - ts 4 ≥ (60000 : ℤ)) := not_le.mpr hreject
  refine ⟨?_, ?_, h5, ?_, ?_, ?_⟩
  · simp [failCascade, cbExecute, checkState, onFailure, initialCBState,
      defaultCircuitBreakerConfig]
  · simp [failCascade, cbExecute, checkState, onFailure, initialCBState,
      defaultCircuitBreakerConfig]
  · rw [h5]
    simp [cbExecute, checkState, defaultCircuitBreakerConfig, hnotypassed]
  · rw [h5]
    simp [checkState, defaultCircuitBreakerConfig, hprobe]
  · rw [h5]
    simp [cbExecute, checkState, onSuccess, defaultCircuitBreakerConfig,
      hprobe]

/-- Witness for C1: five failures at times 0..4, a rejected call at time
100 and a successful probe at time 70000. -/
theorem circuit_breaker_five_failures_witness :
    ((100 : ℤ) - (fun k : ℕ => (k : ℤ)) 4 < 60000 ∧
        (70000 : ℤ) - (fun k : ℕ => (k : ℤ)) 4 ≥ 60000) ∧
      cbExecute defaultCircuitBreakerConfig
          (failCascade defaultCircuitBreakerConfig (.plain "boom")
            (fun k : ℕ => (k : ℤ)) 5) 100 (.ok 7) =
        (.rejected circuitOpenError,
          failCascade defaultCircuitBreakerConfig (.plain "boom")
            (fun k : ℕ => (k : ℤ)) 5) ∧
      cbExecute defaultCircuitBreakerConfig
          (failCascade defaultCircuitBreakerConfig (.plain "boom")
            (fun k : ℕ => (k : ℤ)) 5) 70000 (.ok 7) =
        (.completed (.ok 7),
          { failureCount := 0,
            lastFailureTime := (fun k : ℕ => (k : ℤ)) 4, state := .closed }) :=
  ⟨⟨by norm_num, by norm_num⟩,
    (circuit_breaker_five_failures (.plain "boom") (fun k : ℕ => (k : ℤ))
      100 70000 (.ok 7) 7 (by norm_num) (by norm_num)).2.2.2.1,
    (circuit_breaker_five_failures (.plain "boom") (fun k : ℕ => (k : ℤ))
      100 70000 (.ok 7) 7 (by norm_num) (by norm_num)).2.2.2.2.2⟩

/-- C7 (counterexample): with `resetsAt` in January 2025 and the current
time in January 2026 (the calendar month has changed — a year has passed —
but the 0–11 month index is 0 in both), a budget check past `resetsAt`
resets `dailyUsage` but leaves `monthlyUsage` untouched, contrary to the
claim that monthly usage resets whenever the calendar month changed. -/
theorem monthly_reset_misses_year_boundary :
    (calendarMonthChanged
        { time := 1767225600000, month := 0, year := 2026 }
        ({ dailyLimit := 1000, dailyUsage := 700, monthlyLimit := 100000,
           monthlyUsage := 500,
           resetsAt := { time := 1735689600000, month := 0, year := 2025 } :
           TokenBudget }).resetsAt = true) ∧
      (checkTokenBudget none
        { dailyLimit := 1000, dailyUsage := 700, monthlyLimit := 100000,
          monthlyUsage := 500,
          resetsAt := { time := 1735689600000, month := 0, year := 2025 } }
        { time := 1767225600000, month := 0, year := 2026 }).2.monthlyUsage = 500 ∧
      (checkTokenBudget none
        { dailyLimit := 1000, dailyUsage := 700, monthlyLimit := 100000,
          monthlyUsage := 500,
          resetsAt := { time := 1735689600000, month := 0, year := 2025 } }
        { time := 1767225600000, month := 0, year := 2026 }).2.dailyUsage = 0 := by
  refine ⟨rfl, ?_, ?_⟩ <;> norm_num [checkTokenBudget, calendarMonthChanged]

/-- C7 (amended): whenever the budget check runs with the current time
strictly past `resetsAt`, `dailyUsage` resets to 0 unconditionally, and
`monthlyUsage` resets exactly when the month-of-year index (`getMonth()`,
0–11) of the current time differs from that of `resetsAt`; a calendar-month
change across an exact year boundary (same month index, different year)
does not reset `monthlyUsage`. -/
theorem checkTokenBudget_reset (defaultProvider : Option Provider)
    (b : TokenBudget) (now : DateModel) (hpast : now.time > b.resetsAt.time) :
    (checkTokenBudget defaultProvider b now).2.dailyUsage = 0 ∧
      (checkTokenBudget defaultProvider b now).2.monthlyUsage =
        (if now.month ≠ b.resetsAt.month then 0 else b.monthlyUsage) := by
  unfold checkTokenBudget
  simp only [if_pos hpast]
  constructor <;> (repeat' split) <;> simp_all

/-- Witness for the amended C7 at a concrete budget and time. -/
theorem checkTokenBudget_reset_witness :
    ((1767225600000 : ℤ) >
        ({ dailyLimit := 1000, dailyUsage := 700, monthlyLimit := 100000,
           monthlyUsage := 500,
           resetsAt := { time := 1735689600000, month := 0, year := 2025 } :
           TokenBudget }).resetsAt.time) ∧
      (checkTokenBudget none
        { dailyLimit := 1000, dailyUsage := 700, monthlyLimit := 100000,
          monthlyUsage := 500,
          resetsAt := { time := 1735689600000, month := 0, year := 2025 } }
        { time := 1767225600000, month := 5, year := 2026 }).2.dailyUsage = 0 ∧
      (checkTokenBudget none
        { dailyLimit := 1000, dailyUsage := 700, monthlyLimit := 100000,
          monthlyUsage := 500,
          resetsAt := { time := 1735689600000, month := 0, year := 2025 } }
        { time := 1767225600000, month := 5, year := 2026 }).2.monthlyUsage =
        (if (5 : ℕ) ≠ 0 then 0 else 500) :=
  ⟨by norm_num,
    (checkTokenBudget_reset none _ { time := 1767225600000, month := 5, year := 2026 }
      (by norm_num)).1,
    (checkTokenBudget_reset none _ { time := 1767225600000, month := 5, year := 2026 }
      (by norm_num)).2⟩

/-- Helper: inside the retry loop, as long as attempts fail with retryable
errors, the loop walks forward; the first non-retryable failure at an
attempt that is not the last allowed one is re-raised as-is, after exactly
as many `onRetry` calls as retryable failures were skipped. -/
theorem withRetryGo_reraises (config : RetryConfig)
    (op : ℕ → Except JSError α) :
    ∀ (i fuel : ℕ) (e : JSError), fuel ≤ config.maxRetries → i < fuel →
      (∀ j, config.maxRetries - fuel ≤ j →
        j < config.maxRetries - fuel + i →
        ∃ ej, op j = .error ej ∧ isRetryableError ej config = true) →
      op (config.maxRetries - fuel + i) = .error e →
      isRetryableError e config = false →
      (withRetryGo op config fuel).1 = .error e ∧
        (withRetryGo op config fuel).2.length = i := by
  intro i
  induction i with
  | zero =>
    intro fuel e hf hi hskip hop hnr
    match fuel, hi with
    | fuel' + 1, _ =>
      rw [Nat.add_zero] at hop
      simp only [withRetryGo]
      rw [hop]
      simp [hnr]
  | succ n ih =>
    intro fuel e hf hi hskip hop hnr
    match fuel, hi with
    | fuel' + 1, hi =>
      obtain ⟨ea, hea, hra⟩ :=
        hskip (config.maxRetries - (fuel' + 1)) le_rfl (by omega)
      have hrec := ih fuel' e (by omega) (by omega)
        (fun j h1 h2 => hskip j (by omega) (by omega))
        (by rw [show config.maxRetries - fuel' + n =
              config.maxRetries - (fuel' + 1) + (n + 1) by omega]; exact hop)
        hnr
      simp only [withRetryGo]
      rw [hea]
      simp [hra, hrec.1, hrec.2]

/-- Helper: when every attempt before the last fails with a retryable error
and the last allowed attempt also fails (with any error at all), the retry
loop raises the wrapping "Failed after N attempts" resilience error. -/
theorem withRetryGo_exhausts (config : RetryConfig)
    (op : ℕ → Except JSError α) :
    ∀ (fuel : ℕ) (e : JSError), fuel ≤ config.maxRetries →
      (∀ j, config.maxRetries - fuel ≤ j → j < config.maxRetries →
        ∃ ej, op j = .error ej ∧ isRetryableError ej config = true) →
      op config.maxRetries = .error e →
      (withRetryGo op config fuel).1 = .error (wrapExhausted config e) := by
  intro fuel
  induction fuel with
  | zero =>
    intro e _ _ hop
    simp only [withRetryGo]
    rw [hop]
  | succ fuel' ih =>
    intro e hf hskip hop
    obtain ⟨ea, hea, hra⟩ :=
      hskip (config.maxRetries - (fuel' + 1)) le_rfl (by omega)
    have hrec := ih e (by omega) (fun j h1 h2 => hskip j (by omega) h2) hop
    simp only [withRetryGo]
    rw [hea]
    simp [hra, hrec]

/-- C2 (amended): a failing attempt inside `withRetry` whose error is
non-retryable re-raises that same error immediately — without invoking the
operation again — on every attempt strictly before the final allowed one
(first conjunct: the result is exactly that error and only the earlier
retryable failures triggered `onRetry`); on the final allowed attempt,
however, any failure — retryable or not — is not re-raised as itself but
wrapped in the "Failed after N attempts" resilience error (second
conjunct). -/
theorem withRetry_nonretryable_propagation (config : RetryConfig)
    (op : ℕ → Except JSError α) :
    (∀ (i : ℕ) (e : JSError), i < config.maxRetries →
      (∀ j, j < i → ∃ ej, op j = .error ej ∧
        isRetryableError ej config = true) →
      op i = .error e → isRetryableError e config = false →
      (withRetry op config).1 = .error e ∧
        (withRetry op config).2.length = i) ∧
    (∀ e : JSError,
      (∀ j, j < config.maxRetries → ∃ ej, op j = .error ej ∧
        isRetryableError ej config = true) →
      op config.maxRetries = .error e →
      (withRetry op config).1 = .error (wrapExhausted config e)) := by
  constructor
  · intro i e hi hskip hop hnr
    refine withRetryGo_reraises config op i config.maxRetries e le_rfl hi
      ?_ ?_ hnr
    · intro j h1 h2
      exact hskip j (by omega)
    · rw [Nat.sub_self, Nat.zero_add]
      exact hop
  · intro e hskip hop
    refine withRetryGo_exhausts config op config.maxRetries e le_rfl ?_ hop
    intro j h1 h2
    exact hskip j h2

/-- Witness for the amended C2: under the default configuration an attempt-0
retryable 429 failure followed by an attempt-1 non-retryable 400 failure
makes `withRetry` return exactly the 400 error after one `onRetry` call. -/
theorem withRetry_nonretryable_propagation_witness :
    (withRetry (fun j =>
        if j = 0 then .error (.llm "rate limited" .openai (some 429) true none)
        else .error (.llm "invalid request" .openai (some 400) false none) :
        ℕ → Except JSError ℕ) DEFAULT_RETRY_CONFIG).1 =
      .error (.llm "invalid request" .openai (some 400) false none) ∧
      (withRetry (fun j =>
        if j = 0 then .error (.llm "rate limited" .openai (some 429) true none)
        else .error (.llm "invalid request" .openai (some 400) false none) :
        ℕ → Except JSError ℕ) DEFAULT_RETRY_CONFIG).2.length = 1 :=
  (withRetry_nonretryable_propagation DEFAULT_RETRY_CONFIG _).1 1
    (.llm "invalid request" .openai (some 400) false none)
    (by norm_num [DEFAULT_RETRY_CONFIG])
    (fun j hj => by
      have hj0 : j = 0 := by omega
      subst hj0
      exact ⟨.llm "rate limited" .openai (some 429) true none, rfl, by decide⟩)
    rfl (by decide)

/-- C2 (counterexample): with `maxRetries = 0` — a configuration the claim
quantifies over — an operation failing with a non-retryable error on its
only (hence final allowed) attempt makes `withRetry` raise the wrapping
"Failed after 1 attempts" resilience error, not that same error: the
re-raise-as-is behaviour does not extend to the final allowed attempt. -/
theorem withRetry_final_attempt_wraps :
    (withRetry (fun _ => .error (.llm "boom" .anthropic none false none) :
        ℕ → Except JSError ℕ)
      { DEFAULT_RETRY_CONFIG with maxRetries := 0 }).1 =
      .error (wrapExhausted { DEFAULT_RETRY_CONFIG with maxRetries := 0 }
        (.llm "boom" .anthropic none false none)) ∧
      (wrapExhausted { DEFAULT_RETRY_CONFIG with maxRetries := 0 }
        (.llm "boom" .anthropic none false none)).message =
        "Failed after 1 attempts: boom" ∧
      (JSError.llm "boom" .anthropic none false none).message = "boom" ∧
      (wrapExhausted { DEFAULT_RETRY_CONFIG with maxRetries := 0 }
        (.llm "boom" .anthropic none false none)).message ≠ "boom" :=
  ⟨rfl, rfl, rfl, by decide⟩

/-- C9: with the default service configuration (circuit breaker and retry
enabled, default retry configuration with `maxRetries = 3` and
`retryableStatuses` containing 503) and an operation failing its first two
invocations with a retryable 503 resilience error and succeeding on the
third, `complete` returns the successful response, the retry callback fires
exactly twice — with attempt numbers 1 and 2 — and `generate` ran three
times. -/
theorem complete_retries_twice_then_succeeds (msg : String) (p : Provider)
    (cause : Option JSError) (resp : LLMResponse String) (prov : Provider)
    (provTimeout : Option ℕ) (prompt : String) (now : DateModel) :
    (complete {} prov provTimeout prompt none none
        (fun i => if i < 2 then
          .error (.llm msg p (some 503) true cause) else .ok resp)
        (fun _ => false) now).result = .ok resp ∧
      (complete {} prov provTimeout prompt none none
        (fun i => if i < 2 then
          .error (.llm msg p (some 503) true cause) else .ok resp)
        (fun _ => false) now).retryCalls =
        [(1, .llm msg p (some 503) true cause),
         (2, .llm msg p (some 503) true cause)] ∧
      (complete {} prov provTimeout prompt none none
        (fun i => if i < 2 then
          .error (.llm msg p (some 503) true cause) else .ok resp)
        (fun _ => false) now).genCalls = 3 := by
  have hre : isRetryableError (.llm msg p (some 503) true cause)
      DEFAULT_RETRY_CONFIG = true := by
    simp [isRetryableError, DEFAULT_RETRY_CONFIG]
  have hm : DEFAULT_RETRY_CONFIG.maxRetries = 3 := rfl
  refine ⟨?_, ?_, ?_⟩ <;>
    simp [complete, executeRequest, withRetry, withRetryGo, withTimeout,
      cbExecute, checkState, onSuccess, hre, hm,
      initialCBState, defaultCircuitBreakerConfig]

/-- Helper: when the operation's first invocation succeeds, `withRetry`
returns that success with no `onRetry` calls, whatever the configuration. -/
theorem withRetry_first_success (config : RetryConfig)
    (op : ℕ → Except JSError α) (v : α) (h : op 0 = .ok v) :
    withRetry op config = (.ok v, []) := by
  unfold withRetry
  rcases hM : config.maxRetries with _ | n
  · simp only [withRetryGo]
    rw [hM, h]
  · simp only [withRetryGo]
    rw [hM, Nat.sub_self, h]

/-- Helper: with a configured budget whose daily usage has reached its
limit and a current time not yet past `resetsAt`, `executeRequest` raises
the daily budget-exceeded error before creating any breaker or invoking
`generate`, leaving the budget as it was. -/
theorem executeRequest_budget_exhausted (cfg : LLMServiceConfig)
    (b : TokenBudget) (prov : Provider) (provTimeout optTimeout : Option ℕ)
    (breakerIn : Option CircuitBreakerState)
    (genSeq : ℕ → Except JSError (LLMResponse β)) (timedOut : ℕ → Bool)
    (now : DateModel) (hb : cfg.tokenBudget = some b)
    (hlimit : b.dailyUsage ≥ b.dailyLimit)
    (hnotpast : now.time ≤ b.resetsAt.time) :
    executeRequest cfg prov provTimeout optTimeout breakerIn genSeq timedOut
        now =
      { result := .error (budgetExceededError "Daily token budget exceeded"
          cfg.defaultProvider)
        budget := some b, breaker := breakerIn, retryCalls := [],
        genCalls := 0 } := by
  have hcheck : checkTokenBudget cfg.defaultProvider b now =
      (some (budgetExceededError "Daily token budget exceeded"
        cfg.defaultProvider), b) := by
    unfold checkTokenBudget
    rw [if_neg (not_lt.mpr hnotpast), if_pos hlimit]
  unfold executeRequest
  rw [hb]
  simp [hcheck]

/-- C4: with a configured token budget whose `dailyUsage` has reached
`dailyLimit` and a current time that has not yet passed `resetsAt`, every
`complete` call — and every `ask` call that reaches the budget gate, i.e.
whose input passes its schema — raises the budget-exceeded resilience error
and never invokes the provider's `generate` (zero network calls). -/
theorem budget_exhausted_blocks_calls {ι ω : Type} (cfg : LLMServiceConfig)
    (b : TokenBudget) (prov : Provider) (provDefaultModel : Option String)
    (provTimeout : Option ℕ) (prompt : String)
    (overrides : Option RequestOverrides) (req : StructuredRequest ι ω)
    (vi : ι) (jsonParse : String → Except String JsonValue)
    (breakerIn : Option CircuitBreakerState)
    (genSeq : ℕ → Except JSError (LLMResponse String)) (timedOut : ℕ → Bool)
    (now : DateModel) (hb : cfg.tokenBudget = some b)
    (hlimit : b.dailyUsage ≥ b.dailyLimit)
    (hnotpast : now.time ≤ b.resetsAt.time)
    (hvi : req.inputSchema req.input = .ok vi) :
    ((complete cfg prov provTimeout prompt overrides breakerIn genSeq
        timedOut now).result =
      .error (budgetExceededError "Daily token budget exceeded"
        cfg.defaultProvider) ∧
      (complete cfg prov provTimeout prompt overrides breakerIn genSeq
        timedOut now).genCalls = 0) ∧
      ((ask cfg prov provDefaultModel provTimeout req jsonParse breakerIn
        genSeq timedOut now).result =
      .error (budgetExceededError "Daily token budget exceeded"
        cfg.defaultProvider) ∧
      (ask cfg prov provDefaultModel provTimeout req jsonParse breakerIn
        genSeq timedOut now).genCalls = 0) := by
  have hexec := fun ot => executeRequest_budget_exhausted cfg b prov
    provTimeout ot breakerIn genSeq timedOut now hb hlimit hnotpast
  constructor
  · unfold complete
    rw [hexec]
    exact ⟨rfl, rfl⟩
  · unfold ask
    rw [hvi]
    simp [hexec]

/-- Witness for C4 at a concrete exhausted budget (daily usage 1000 of
limit 1000, current time before `resetsAt`). -/
theorem budget_exhausted_blocks_calls_witness :
    (budgetCfg.tokenBudget = some exhaustedBudget ∧
      exhaustedBudget.dailyUsage ≥ exhaustedBudget.dailyLimit ∧
      earlyNow.time ≤ exhaustedBudget.resetsAt.time ∧
      idSchemaReq.inputSchema idSchemaReq.input = .ok ()) ∧
      (complete budgetCfg .openai none "What is 2+2?" none none
        (fun _ => .ok stubResponse) (fun _ => false) earlyNow).result =
        .error (budgetExceededError "Daily token budget exceeded"
          budgetCfg.defaultProvider) ∧
      (complete budgetCfg .openai none "What is 2+2?" none none
        (fun _ => .ok stubResponse) (fun _ => false) earlyNow).genCalls = 0 :=
  ⟨⟨rfl, by norm_num [exhaustedBudget], by norm_num [exhaustedBudget, earlyNow],
      rfl⟩,
    (budget_exhausted_blocks_calls budgetCfg exhaustedBudget .openai none none
      "What is 2+2?" none idSchemaReq () (fun _ => .error "x") none
      (fun _ => .ok stubResponse) (fun _ => false) earlyNow rfl
      (by norm_num [exhaustedBudget])
      (by norm_num [exhaustedBudget, earlyNow]) rfl).1⟩

/-- C8: under the default protections (circuit breaker and retry enabled,
fresh breaker) with a configured budget that passes its checks, when the
provider's single successful `generate` returns content that fails JSON
parsing (or whose parsed value fails the output schema — `eUnder` is the
underlying failure either way), `ask` raises a non-retryable resilience
error whose message and cause reference that underlying failure, and the
successful response's `usage.totalTokens` is credited to `dailyUsage` and
`monthlyUsage` exactly once. -/
theorem ask_output_parse_failure {ι ω : Type} (cfg : LLMServiceConfig)
    (prov : Provider) (provDefaultModel : Option String)
    (provTimeout : Option ℕ) (req : StructuredRequest ι ω) (vi : ι)
    (b : TokenBudget) (resp : LLMResponse String) (eUnder : JSError)
    (jsonParse : String → Except String JsonValue)
    (genSeq : ℕ → Except JSError (LLMResponse String)) (timedOut : ℕ → Bool)
    (now : DateModel)
    (hvi : req.inputSchema req.input = .ok vi)
    (hb : cfg.tokenBudget = some b)
    (hnotpast : now.time ≤ b.resetsAt.time)
    (hdaily : b.dailyUsage < b.dailyLimit)
    (hmonthly : b.monthlyUsage < b.monthlyLimit)
    (hcb : cfg.enableCircuitBreaker = true)
    (hretry : cfg.enableRetry = true)
    (ht0 : timedOut 0 = false)
    (hgen0 : genSeq 0 = .ok resp)
    (hunder : (match jsonParse resp.content with
      | .error m => some (JSError.plain m)
      | .ok j =>
        match req.outputSchema j with
        | .error m => some (JSError.zod m)
        | .ok _ => none) = some eUnder) :
    (ask cfg prov provDefaultModel provTimeout req jsonParse none genSeq
        timedOut now).result =
      .error (.llm ("Failed to parse LLM output: " ++ eUnder.message) prov
        none false (some eUnder)) ∧
      (ask cfg prov provDefaultModel provTimeout req jsonParse none genSeq
        timedOut now).budget =
        some { b with
          dailyUsage := b.dailyUsage + resp.usage.totalTokens
          monthlyUsage := b.monthlyUsage + resp.usage.totalTokens } ∧
      (ask cfg prov provDefaultModel provTimeout req jsonParse none genSeq
        timedOut now).genCalls = 1 := by
  have hcheck : checkTokenBudget cfg.defaultProvider b now = (none, b) := by
    unfold checkTokenBudget
    rw [if_neg (not_lt.mpr hnotpast), if_neg (not_le.mpr hdaily),
      if_neg (not_le.mpr hmonthly)]
  have hexec : ∀ ot : Option ℕ,
      executeRequest cfg prov provTimeout ot none genSeq timedOut now =
        { result := .ok resp
          budget := some { b with
            dailyUsage := b.dailyUsage + resp.usage.totalTokens
            monthlyUsage := b.monthlyUsage + resp.usage.totalTokens }
          breaker := some initialCBState, retryCalls := [], genCalls := 1 } := by
    intro ot
    have hwr : withRetry (fun i => withTimeout (genSeq i) (timedOut i)
        ("Request to " ++ prov.name ++ " timed out after " ++
          toString (ot.getD (provTimeout.getD 30000)) ++ "ms"))
        cfg.retryConfig = (.ok resp, []) :=
      withRetry_first_success _ _ resp (by simp [withTimeout, ht0, hgen0])
    unfold executeRequest
    rw [hb]
    simp [hcheck, hcb, hretry, hwr, cbExecute, checkState, onSuccess,
      initialCBState, defaultCircuitBreakerConfig]
  unfold ask
  rw [hvi]
  simp only [hexec]
  rcases hj : jsonParse resp.content with m | j
  · rw [hj] at hunder
    simp only [Option.some.injEq] at hunder
    subst hunder
    simp [hj]
  · rw [hj] at hunder
    rcases ho : req.outputSchema j with m | w
    · simp only [ho, Option.some.injEq] at hunder
      subst hunder
      simp [hj, ho]
    · simp [ho] at hunder

/-- Witness for C8: the stub provider succeeds with content `"4"`, which
`JSON.parse` rejects; the wrapped error carries the parse failure and the
budget is credited the 6 tokens exactly once. -/
theorem ask_output_parse_failure_witness :
    (idSchemaReq.inputSchema idSchemaReq.input = .ok () ∧
      (100 : ℕ) < 1000 ∧ (40 : ℕ) < 100000 ∧
      earlyNow.time ≤ exhaustedBudget.resetsAt.time) ∧
      (ask { tokenBudget := some { exhaustedBudget with dailyUsage := 100 } }
        .groq none none idSchemaReq
        (fun _ => .error "Unexpected token") none (fun _ => .ok stubResponse)
        (fun _ => false) earlyNow).result =
        .error (.llm "Failed to parse LLM output: Unexpected token" .groq none
          false (some (.plain "Unexpected token"))) ∧
      (ask { tokenBudget := some { exhaustedBudget with dailyUsage := 100 } }
        .groq none none idSchemaReq
        (fun _ => .error "Unexpected token") none (fun _ => .ok stubResponse)
        (fun _ => false) earlyNow).budget =
        some { exhaustedBudget with dailyUsage := 106, monthlyUsage := 46 } := by
  have h := ask_output_parse_failure
    { tokenBudget := some { exhaustedBudget with dailyUsage := 100 } }
    .groq none none idSchemaReq () { exhaustedBudget with dailyUsage := 100 }
    stubResponse (.plain "Unexpected token") (fun _ => .error "Unexpected token")
    (fun _ => .ok stubResponse) (fun _ => false) earlyNow rfl rfl
    (by norm_num [exhaustedBudget, earlyNow])
    (by norm_num [exhaustedBudget])
    (by norm_num [exhaustedBudget]) rfl rfl rfl rfl rfl
  refine ⟨⟨rfl, by norm_num, by norm_num,
    by norm_num [exhaustedBudget, earlyNow]⟩, ?_, ?_⟩
  · exact h.1
  · have := h.2.1
    simpa [exhaustedBudget, stubResponse] using this

/-- C6 (counterexample): a structured request whose input fails its schema
makes `ask` raise the schema library's raw error and never invoke
`generate` — but that error is not the single tagged resilience error kind
(it carries no provider, status code or retryable flag), so the claim as
stated fails. -/
theorem ask_invalid_input_raises_untagged_error :
    ((ask {} .anthropic none none
        { inputSchema := fun _ => .error "Required"
          outputSchema := fun _ => .ok ()
          input := ()
          userPrompt := fun _ => "prompt" :
          StructuredRequest Unit Unit }
        (fun _ => .error "unreachable") none
        (fun _ => .error (.plain "no network")) (fun _ => false)
        { time := 0, month := 0, year := 2025 }).result =
      .error (.zod "Required")) ∧
      (ask {} .anthropic none none
        { inputSchema := fun _ => .error "Required"
          outputSchema := fun _ => .ok ()
          input := ()
          userPrompt := fun _ => "prompt" :
          StructuredRequest Unit Unit }
        (fun _ => .error "unreachable") none
        (fun _ => .error (.plain "no network")) (fun _ => false)
        { time := 0, month := 0, year := 2025 }).genCalls = 0 ∧
      (JSError.zod "Required").isLLMError = false :=
  ⟨rfl, rfl, rfl⟩

/-- C6 (amended): for every structured request whose input fails its
declared input schema, `ask` raises the schema library's validation error
(which is not the tagged resilience error kind) before any network
attempt — the provider's `generate` is never invoked and no service state
changes. -/
theorem ask_invalid_input_aborts {ι ω : Type} (cfg : LLMServiceConfig)
    (prov : Provider) (provDefaultModel : Option String)
    (provTimeout : Option ℕ) (req : StructuredRequest ι ω)
    (jsonParse : String → Except String JsonValue)
    (breakerIn : Option CircuitBreakerState)
    (genSeq : ℕ → Except JSError (LLMResponse String)) (timedOut : ℕ → Bool)
    (now : DateModel) (m : String)
    (hinvalid : req.inputSchema req.input = .error m) :
    (ask cfg prov provDefaultModel provTimeout req jsonParse breakerIn genSeq
        timedOut now).result = .error (.zod m) ∧
      (ask cfg prov provDefaultModel provTimeout req jsonParse breakerIn
        genSeq timedOut now).genCalls = 0 ∧
      (JSError.zod m).isLLMError = false := by
  unfold ask
  rw [hinvalid]
  exact ⟨rfl, rfl, rfl⟩

/-- Witness for the amended C6 at a concrete request. -/
theorem ask_invalid_input_aborts_witness :
    ((({ inputSchema := fun _ => .error "expected string"
         outputSchema := fun _ => .ok ()
         input := ()
         userPrompt := fun _ => "p" :
         StructuredRequest Unit Unit }).inputSchema () =
        .error "expected string") ∧
      (ask {} .groq none none
        { inputSchema := fun _ => .error "expected string"
          outputSchema := fun _ => .ok ()
          input := ()
          userPrompt := fun _ => "p" }
        (fun _ => .error "x") none (fun _ => .error (.plain "net"))
        (fun _ => false) { time := 4, month := 1, year := 2025 }).result =
        .error (.zod "expected string")) :=
  ⟨rfl,
    (ask_invalid_input_aborts {} .groq none none _ (fun _ => .error "x") none
      (fun _ => .error (.plain "net")) (fun _ => false)
      { time := 4, month := 1, year := 2025 } "expected string" rfl).1⟩

end OpenStrand
